import Mathlib

/-!
Shallow embedding of the PiRateVision pipeline.

The repository has two Rust binaries:
  src/src/main.rs            - capture agent (producer): camera, JPEG encode,
                               ZeroMQ PUSH socket bound to a literal address.
  src/src/processing/main.rs - inference agent (consumer): ZeroMQ PULL socket,
                               ONNX Runtime session, per-frame inference.

External effects (socket creation, bind, connect, camera open and read, JPEG
encoding, send, receive, model load, inference) are modeled by oracles: a
function from the attempt index to the outcome of that attempt, or a per-tick
environment record carrying the outcome of each external call made during that
loop iteration.  Each embedded routine also produces a trace of `Event`s
(sleeps, log lines, external calls) so that the retry intervals and the
diagnostics the code emits can be stated and proved.  The unbounded retry
loops of the source are embedded with an explicit fuel argument: the source
loop returning is modeled by the fuel-indexed function returning `some`, and
"the loop has not yet returned after `fuel` iterations" by `none`.
-/

/-- Observable events of the two agents: sleeps, the exact diagnostic lines the
source prints, and the external calls relevant to the claims. -/
inductive Event where
  | sleepSec (n : Nat)                         -- std::thread::sleep(Duration::from_secs n)
  | sleepMs (n : Nat)                          -- std::thread::sleep(Duration::from_millis n)
  | logSocketRetry                             -- "Failed to create or bind ZeroMQ socket, retrying..."
  | logCameraInitRetry                         -- "Failed to initialize camera, retrying..."
  | logBusy                                    -- "Socket is busy, will retry later"
  | logSendError                               -- "Error sending data, will retry later"
  | logSendFailed                              -- "Failed to send frame, will retry later"
  | logEmptyFrame                              -- "Empty frame captured, retrying..."
  | logCameraError                             -- "Camera error, attempting to reconnect..."
  | setupCameraCall                            -- the in-loop call cam = setup_camera()
  | sendAttempt (data : List Nat) (flags : Nat) -- socket.send(data, flags)
  | logSockCreateRetry                         -- "Error creating ZeroMQ socket: .. Retrying..."
  | logConnectRetry                            -- "Failed to connect to socket: .. Retrying..."
  | logModelLoadRetry                          -- "Failed to load model from ..: .. Retrying..."
  | logRecvFailed                              -- "Failed to receive frame: .."
  | logInferenceError                          -- "Error during inference: .."
  | printOutputs                               -- println of the inference outputs
  deriving DecidableEq, Repr

/-- Events that are diagnostic text output (eprintln lines of the source). -/
def Event.isLog : Event → Bool
  | .logSocketRetry | .logCameraInitRetry | .logBusy | .logSendError
  | .logSendFailed | .logEmptyFrame | .logCameraError | .logSockCreateRetry
  | .logConnectRetry | .logModelLoadRetry | .logRecvFailed
  | .logInferenceError => true
  | _ => false

/-- Events that are sleeps of a whole number of seconds (the retry backoffs). -/
def Event.isSleepSec : Event → Bool
  | .sleepSec _ => true
  | _ => false

/-- Events that are send calls on the producer socket. -/
def Event.isSendAttempt : Event → Bool
  | .sendAttempt _ _ => true
  | _ => false

/-- Events that are calls of the in-loop camera re-acquisition. -/
def Event.isSetupCameraCall : Event → Bool
  | .setupCameraCall => true
  | _ => false

/-! ## Capture agent (src/src/main.rs) -/

/-- Outcome of one iteration of the producer socket acquisition: the body first
calls context.socket(zmq::PUSH) (which may fail) and on success tries
socket.bind(address) (which may fail); only when both succeed the socket is
returned. -/
inductive PSockAttempt where
  | createFail            -- context.socket returned Err
  | bindFail              -- socket created, socket.bind returned Err
  | success (sid : Nat)   -- socket created and bound; sid identifies the handle
  deriving DecidableEq, Repr

/-- Whether a producer socket acquisition attempt failed. -/
def PSockAttempt.isFail : PSockAttempt → Bool
  | .success _ => false
  | _ => true

/-- A bound or connected ZeroMQ socket handle, remembering the address it was
given. -/
structure BoundSocket where
  addr : String
  sid : Nat
  deriving DecidableEq, Repr

/-- setup_socket of src/src/main.rs.  Loops: create a PUSH socket, bind it to
address, return it on success; otherwise (logging only when the creation
itself failed, as in the source, where a bind failure falls through silently)
sleep 1 second and retry.  `k` is the index of the current attempt in the
oracle; `fuel` bounds how many iterations we unroll. -/
def setup_socketP (attempts : Nat → PSockAttempt) (address : String)
    (k : Nat) : Nat → Option (BoundSocket × List Event)
  | 0 => none
  | fuel + 1 =>
    match attempts k with
    | .success sid => some (⟨address, sid⟩, [])
    | .createFail =>
        (setup_socketP attempts address (k + 1) fuel).map
          (fun r => (r.1, Event.logSocketRetry :: Event.sleepSec 1 :: r.2))
    | .bindFail =>
        (setup_socketP attempts address (k + 1) fuel).map
          (fun r => (r.1, Event.sleepSec 1 :: r.2))

/-- An open VideoCapture handle.  The resolution configuration calls of the
source (cam.set width 640 / height 480) are best-effort and their results are
discarded with .ok(); they do not affect acquisition success, so the handle is
just its identity. -/
structure Camera where
  camId : Nat
  deriving DecidableEq, Repr

/-- setup_camera of src/src/main.rs.  Loops: VideoCapture::new(0, CAP_ANY);
on success set the resolution (best effort) and return the camera; on failure
log and sleep 1 second, then retry. -/
def setup_camera (attempts : Nat → Option Nat)
    (k : Nat) : Nat → Option (Camera × List Event)
  | 0 => none
  | fuel + 1 =>
    match attempts k with
    | some cid => some (⟨cid⟩, [])
    | none =>
        (setup_camera attempts (k + 1) fuel).map
          (fun r => (r.1, Event.logCameraInitRetry :: Event.sleepSec 1 :: r.2))

/-- Outcome the transport reports for one send call. -/
inductive SendResult where
  | ok          -- send succeeded
  | eagain      -- zmq::Error::EAGAIN, the would-block error
  | errOther    -- any other send error
  deriving DecidableEq, Repr

/-- The value of the zmq::DONTWAIT flag (ZMQ_DONTWAIT = 1 in zmq.h). -/
def dontwait : Nat := 1

/-- try_send of src/src/main.rs.  One call of socket.send(data, DONTWAIT);
Ok maps to Ok(()); EAGAIN logs the busy line and returns Err(()); any other
error logs the send-error line and returns Err(()).  `send` is the transport
oracle: the outcome of a send as a function of the flags passed. -/
def try_send (send : Nat → SendResult) (data : List Nat) :
    Except Unit Unit × List Event :=
  match send dontwait with
  | .ok => (.ok (), [.sendAttempt data dontwait])
  | .eagain => (.error (), [.sendAttempt data dontwait, .logBusy])
  | .errOther => (.error (), [.sendAttempt data dontwait, .logSendError])

/-- Outcome of cam.read(&mut frame): Err, or Ok with the captured frame data
(an empty list models an empty Mat). -/
inductive ReadResult where
  | fail
  | ok (frame : List Nat)
  deriving DecidableEq, Repr

/-- The state the capture loop threads between iterations: the camera handle
and the bound socket. -/
structure ProducerState where
  cam : Camera
  sock : BoundSocket
  deriving DecidableEq, Repr

/-- Outcomes of the external calls one capture-loop iteration can make. -/
structure PTickEnv where
  read : ReadResult                       -- cam.read result
  encode : List Nat → Option (List Nat)   -- imencode: frame to JPEG bytes, or failure
  send : Nat → SendResult                 -- transport response to a send with given flags
  newCam : Camera                         -- result of setup_camera if re-acquisition runs

/-- One iteration of the loop body of run_capture_loop (src/src/main.rs):
read a frame; if Ok and non-empty, encode it (a failed encode silently skips
the send), then try_send, logging on send failure; if Ok but empty, log; if
Err, log and replace the camera by a fresh setup_camera result.  Every path
ends with the fixed 33 ms sleep. -/
def captureTick (env : PTickEnv) (s : ProducerState) :
    ProducerState × List Event :=
  match env.read with
  | .ok frame =>
    if frame.isEmpty = false then
      match env.encode frame with
      | some encoded =>
        let r := try_send env.send encoded
        match r.1 with
        | .ok _ => (s, r.2 ++ [.sleepMs 33])
        | .error _ => (s, r.2 ++ [.logSendFailed, .sleepMs 33])
      | none => (s, [.sleepMs 33])
    else (s, [.logEmptyFrame, .sleepMs 33])
  | .fail => ({ s with cam := env.newCam },
      [.logCameraError, .setupCameraCall, .sleepMs 33])

/-- n iterations of the capture loop, the iteration i drawing its external
outcomes from envs i. -/
def runPTicks (envs : Nat → PTickEnv) (s : ProducerState) : Nat → ProducerState
  | 0 => s
  | n + 1 => (captureTick (envs n) (runPTicks envs s n)).1

/-- Oracles for the startup phase of run_capture_loop. -/
structure ProducerStartupEnv where
  sockAttempts : Nat → PSockAttempt
  camAttempts : Nat → Option Nat

/-- The startup phase of run_capture_loop (src/src/main.rs): bind the PUSH
socket at the literal address tcp://*:5555, then open the camera; both with
their unbounded retry loops (fuel-bounded here). -/
def run_capture_startup (env : ProducerStartupEnv) (fuel : Nat) :
    Option (ProducerState × List Event) :=
  match setup_socketP env.sockAttempts "tcp://*:5555" 0 fuel with
  | none => none
  | some (sock, ev1) =>
    match setup_camera env.camAttempts 0 fuel with
    | none => none
    | some (cam, ev2) => some (⟨cam, sock⟩, ev1 ++ ev2)

/-! ## Inference agent (src/src/processing/main.rs) -/

/-- Outcome of one iteration of the consumer socket acquisition: the body
calls context.socket(zmq::PULL) and, on success, socket.connect(address). -/
inductive CSockAttempt where
  | createFail
  | connectFail
  | success (sid : Nat)
  deriving DecidableEq, Repr

/-- Whether a consumer socket acquisition attempt failed. -/
def CSockAttempt.isFail : CSockAttempt → Bool
  | .success _ => false
  | _ => true

/-- setup_socket of src/src/processing/main.rs.  Loops: create a PULL socket
and connect it to address; on success return Ok(socket); on either failure
log and sleep 2 seconds, then retry. -/
def setup_socketC (attempts : Nat → CSockAttempt) (address : String)
    (k : Nat) : Nat → Option (BoundSocket × List Event)
  | 0 => none
  | fuel + 1 =>
    match attempts k with
    | .success sid => some (⟨address, sid⟩, [])
    | .createFail =>
        (setup_socketC attempts address (k + 1) fuel).map
          (fun r => (r.1, Event.logSockCreateRetry :: Event.sleepSec 2 :: r.2))
    | .connectFail =>
        (setup_socketC attempts address (k + 1) fuel).map
          (fun r => (r.1, Event.logConnectRetry :: Event.sleepSec 2 :: r.2))

/-- An ndarray tensor: a shape together with the underlying flat data. -/
structure Tensor where
  shape : List Nat
  data : List Nat
  deriving DecidableEq, Repr

/-- Array::from_shape_vec of ndarray: succeeds exactly when the product of the
dimensions equals the length of the data vector. -/
def from_shape_vec (shape : List Nat) (data : List Nat) : Except Unit Tensor :=
  if shape.prod = data.length then .ok ⟨shape, data⟩ else .error ()

/-- Stand-in for the Vec of f32 output arrays of session.run; the pipeline
never inspects the numeric values, only forwards them to the print sink. -/
abbrev Outputs := List Int

/-- A loaded ONNX session: the model path it was loaded from and the behavior
of session.run on a vector of input tensors. -/
structure ModelSession where
  path : String
  run : List Tensor → Except Unit Outputs

/-- setup_model of src/src/processing/main.rs.  Loops: build a session with
basic graph optimization from the model file; on success return Ok(session);
on failure log and sleep 5 seconds, then retry.  The oracle gives, per
attempt, the run behavior of the session the load would produce. -/
def setup_model (attempts : Nat → Option (List Tensor → Except Unit Outputs))
    (path : String) (k : Nat) : Nat → Option (ModelSession × List Event)
  | 0 => none
  | fuel + 1 =>
    match attempts k with
    | some runFn => some (⟨path, runFn⟩, [])
    | none =>
        (setup_model attempts path (k + 1) fuel).map
          (fun r => (r.1, Event.logModelLoadRetry :: Event.sleepSec 5 :: r.2))

/-- process_frame of src/src/processing/main.rs: reshape the received bytes
into a (1, 3, 224, 224) tensor (an error aborts before inference), then run
the session on the singleton input vector.  The second component counts how
many times session.run was invoked. -/
def process_frame (session : ModelSession) (frame_data : List Nat) :
    Except Unit Outputs × Nat :=
  match from_shape_vec [1, 3, 224, 224] frame_data with
  | .error e => (.error e, 0)
  | .ok input_tensor => (session.run [input_tensor], 1)

/-- Outcome of socket.recv_bytes(0). -/
inductive RecvResult where
  | ok (frame_data : List Nat)
  | err
  deriving DecidableEq, Repr

/-- The state the processing loop threads between iterations: the connected
socket and the loaded model session. -/
structure ConsumerState where
  sock : BoundSocket
  session : ModelSession

/-- Outcomes of the external calls one processing-loop iteration can make. -/
structure CTickEnv where
  recv : RecvResult

/-- One iteration of the loop body of run_processing_loop
(src/src/processing/main.rs): blocking receive; on Ok run process_frame,
printing the outputs on success and logging the error on failure; on Err log
and sleep 1 second. -/
def processingTick (env : CTickEnv) (s : ConsumerState) :
    ConsumerState × List Event :=
  match env.recv with
  | .ok frame_data =>
    match (process_frame s.session frame_data).1 with
    | .ok _ => (s, [.printOutputs])
    | .error _ => (s, [.logInferenceError])
  | .err => (s, [.logRecvFailed, .sleepSec 1])

/-- n iterations of the processing loop. -/
def runCTicks (envs : Nat → CTickEnv) (s : ConsumerState) : Nat → ConsumerState
  | 0 => s
  | n + 1 => (processingTick (envs n) (runCTicks envs s n)).1

/-- The process environment variables, as a partial map (env::var returns Err
for an unset variable, modeled by none). -/
structure OsEnv where
  vars : String → Option String

/-- The consumer transport address: env::var ZMQ_ADDRESS with the literal
default. -/
def zmqAddressOf (e : OsEnv) : String :=
  (e.vars "ZMQ_ADDRESS").getD "tcp://localhost:5555"

/-- The model artifact path: env::var MODEL_PATH with the literal default. -/
def modelPathOf (e : OsEnv) : String :=
  (e.vars "MODEL_PATH").getD "model.onnx"

/-- Oracles for the startup phase of run_processing_loop. -/
structure ConsumerStartupEnv where
  os : OsEnv
  sockAttempts : Nat → CSockAttempt
  envBuildOk : Bool     -- whether Environment::builder()...build() succeeds
  modelAttempts : Nat → Option (List Tensor → Except Unit Outputs)

/-- Result of the consumer startup: either the expect on the ONNX Runtime
environment build panicked (carrying the events emitted before the panic), or
the loop state is ready. -/
inductive ConsumerStartup where
  | panicked (events : List Event)
  | ready (st : ConsumerState) (events : List Event)

/-- The startup phase of run_processing_loop (src/src/processing/main.rs):
read ZMQ_ADDRESS and MODEL_PATH with their defaults, acquire the PULL socket
with retry, build the ONNX Runtime environment (a failure panics at once via
expect, with no retry), then load the model with retry. -/
def run_processing_startup (env : ConsumerStartupEnv) (fuel : Nat) :
    Option ConsumerStartup :=
  match setup_socketC env.sockAttempts (zmqAddressOf env.os) 0 fuel with
  | none => none
  | some (sock, ev1) =>
    if env.envBuildOk then
      match setup_model env.modelAttempts (modelPathOf env.os) 0 fuel with
      | none => none
      | some (session, ev2) => some (.ready ⟨sock, session⟩ (ev1 ++ ev2))
    else some (.panicked ev1)

/-! ## Example oracles used by the witness theorems -/

/-- Example producer-socket oracle: create fails, then bind fails, then the
third attempt succeeds. -/
def pSockAttemptsEx : Nat → PSockAttempt
  | 0 => .createFail
  | 1 => .bindFail
  | _ => .success 7

/-- Example camera oracle: one failure, then success. -/
def camAttemptsEx : Nat → Option Nat
  | 0 => none
  | _ => some 4

/-- Example consumer-socket oracle: connect fails once, then success. -/
def cSockAttemptsEx : Nat → CSockAttempt
  | 0 => .connectFail
  | _ => .success 9

/-- Example run behavior of a loaded session. -/
def runFnEx : List Tensor → Except Unit Outputs := fun _ => .ok []

/-- Example model-load oracle: two failures, then success. -/
def modelAttemptsEx : Nat → Option (List Tensor → Except Unit Outputs)
  | 0 => none
  | 1 => none
  | _ => some runFnEx

/-- Example producer state after startup. -/
def producerStateEx : ProducerState := ⟨⟨1⟩, ⟨"tcp://*:5555", 7⟩⟩

/-- Example tick environment whose camera read fails. -/
def readFailEnvEx : PTickEnv := ⟨.fail, fun _ => none, fun _ => .ok, ⟨2⟩⟩

/-- Example tick environment with a good frame and a working transport. -/
def okTickEnvEx : PTickEnv := ⟨.ok [5], fun f => some f, fun _ => .ok, ⟨2⟩⟩

/-- Example tick environment whose transport would block. -/
def eagainTickEnvEx : PTickEnv := ⟨.ok [5], fun f => some f, fun _ => .eagain, ⟨2⟩⟩

/-- Example tick environment that captures an empty frame. -/
def emptyTickEnvEx : PTickEnv := ⟨.ok [], fun f => some f, fun _ => .ok, ⟨2⟩⟩

/-- Example tick environment whose JPEG encoding fails on a good frame. -/
def encodeFailEnvEx : PTickEnv := ⟨.ok [5], fun _ => none, fun _ => .ok, ⟨2⟩⟩

/-- Example loaded session. -/
def sessionEx : ModelSession := ⟨"model.onnx", runFnEx⟩

/-- Example consumer state after startup. -/
def consumerStateEx : ConsumerState := ⟨⟨"tcp://localhost:5555", 9⟩, sessionEx⟩

/-- Example consumer tick environment whose receive fails. -/
def recvErrEnvEx : CTickEnv := ⟨.err⟩

/-- Example consumer tick environment receiving a wrongly sized payload. -/
def recvShortEnvEx : CTickEnv := ⟨.ok [0, 1, 2]⟩

/-- Example process environment with no variables set. -/
def osEnvEx : OsEnv := ⟨fun _ => none⟩

/-- Example process environment with both variables set. -/
def osEnvSetEx : OsEnv :=
  ⟨fun n => if n = "ZMQ_ADDRESS" then some "tcp://10.0.0.5:7777"
    else if n = "MODEL_PATH" then some "m2.onnx" else none⟩

/-- Example producer startup oracles. -/
def producerStartupEnvEx : ProducerStartupEnv := ⟨pSockAttemptsEx, camAttemptsEx⟩

/-- Example consumer startup oracles with both variables set. -/
def consumerStartupEnvEx : ConsumerStartupEnv :=
  ⟨osEnvSetEx, cSockAttemptsEx, true, modelAttemptsEx⟩

/-- Example consumer startup oracles whose ONNX Runtime environment build
fails. -/
def consumerStartupEnvFailEx : ConsumerStartupEnv :=
  ⟨osEnvEx, fun _ => .success 9, false, modelAttemptsEx⟩

/-! ## Helper lemmas -/

/-- Generic shape of the four acquisition loops: `f k fuel` runs the loop
starting at attempt `k` with `fuel` iterations of unrolling; attempts below
`N` fail, each emitting its prefix events and one fixed-interval sleep, and
attempt `N` succeeds with value `val` and no further events.  Then the loop
starting at attempt `N - d` returns nothing within `d` iterations and returns
`val` with exactly `d` fixed-interval sleeps on any larger fuel. -/
theorem retry_generic {α : Type}
    (f : Nat → Nat → Option (α × List Event))
    (N : Nat) (val : α) (interval : Nat) (pre : Nat → List Event)
    (h0 : ∀ k, f k 0 = none)
    (hsN : ∀ fuel, f N (fuel + 1) = some (val, []))
    (hstep : ∀ k, k < N → ∀ fuel, f k (fuel + 1) =
        (f (k + 1) fuel).map (fun r => (r.1, pre k ++ Event.sleepSec interval :: r.2)))
    (hpre : ∀ k, (pre k).filter Event.isSleepSec = []) :
    ∀ d, d ≤ N →
      (∀ fuel, fuel ≤ d → f (N - d) fuel = none) ∧
      (∀ fuel, d < fuel → ∃ tr, f (N - d) fuel = some (val, tr) ∧
        tr.filter Event.isSleepSec = List.replicate d (Event.sleepSec interval)) := by
  intro d
  induction d with
  | zero =>
    intro _
    refine ⟨?_, ?_⟩
    · intro fuel hf
      have : fuel = 0 := by omega
      subst this
      exact h0 _
    · intro fuel hf
      obtain ⟨g, rfl⟩ : ∃ g, fuel = g + 1 := ⟨fuel - 1, by omega⟩
      refine ⟨[], ?_, by simp⟩
      simpa using hsN g
  | succ d ih =>
    intro hdN
    have hk : N - (d + 1) < N := by omega
    have hk1 : N - (d + 1) + 1 = N - d := by omega
    obtain ⟨ihnone, ihsome⟩ := ih (by omega)
    refine ⟨?_, ?_⟩
    · intro fuel hf
      cases fuel with
      | zero => exact h0 _
      | succ g =>
        rw [hstep _ hk g, hk1, ihnone g (by omega)]
        rfl
    · intro fuel hf
      cases fuel with
      | zero => omega
      | succ g =>
        obtain ⟨tr, htr, hfil⟩ := ihsome g (by omega)
        refine ⟨pre (N - (d + 1)) ++ Event.sleepSec interval :: tr, ?_, ?_⟩
        · rw [hstep _ hk g, hk1, htr]
          rfl
        · rw [List.filter_append, hpre, List.filter_cons]
          simp [Event.isSleepSec, hfil, List.replicate_succ]

/-- The producer socket acquisition: fails `N` times then succeeds; never
returns within `N` iterations, and with any larger fuel returns the bound
socket with exactly `N` one-second sleeps. -/
theorem setup_socketP_retry (attempts : Nat → PSockAttempt) (a : String)
    (N sid : Nat) (hfail : ∀ j, j < N → (attempts j).isFail = true)
    (hN : attempts N = .success sid) :
    (∀ fuel, fuel ≤ N → setup_socketP attempts a 0 fuel = none) ∧
    (∀ fuel, N < fuel → ∃ tr, setup_socketP attempts a 0 fuel = some (⟨a, sid⟩, tr) ∧
      tr.filter Event.isSleepSec = List.replicate N (Event.sleepSec 1)) := by
  have h := retry_generic (fun k fuel => setup_socketP attempts a k fuel) N ⟨a, sid⟩ 1
    (fun k => match attempts k with | .createFail => [Event.logSocketRetry] | _ => [])
    (fun k => rfl)
    (fun fuel => by simp [setup_socketP, hN])
    (fun k hk fuel => by
      have hfk := hfail k hk
      cases ha : attempts k with
      | success s => rw [ha] at hfk; simp [PSockAttempt.isFail] at hfk
      | createFail =>
        simp only [setup_socketP, ha]
        cases setup_socketP attempts a (k + 1) fuel <;> rfl
      | bindFail =>
        simp only [setup_socketP, ha]
        cases setup_socketP attempts a (k + 1) fuel <;> rfl)
    (fun k => by cases h : attempts k <;> simp [h, Event.isSleepSec])
    N (le_refl N)
  simpa using h

/-- The camera acquisition: fails `N` times then succeeds; never returns
within `N` iterations, and with any larger fuel returns the camera with
exactly `N` one-second sleeps. -/
theorem setup_camera_retry (attempts : Nat → Option Nat)
    (N cid : Nat) (hfail : ∀ j, j < N → attempts j = none)
    (hN : attempts N = some cid) :
    (∀ fuel, fuel ≤ N → setup_camera attempts 0 fuel = none) ∧
    (∀ fuel, N < fuel → ∃ tr, setup_camera attempts 0 fuel = some (⟨cid⟩, tr) ∧
      tr.filter Event.isSleepSec = List.replicate N (Event.sleepSec 1)) := by
  have h := retry_generic (fun k fuel => setup_camera attempts k fuel) N ⟨cid⟩ 1
    (fun _ => [Event.logCameraInitRetry])
    (fun k => rfl)
    (fun fuel => by simp [setup_camera, hN])
    (fun k hk fuel => by
      have hfk := hfail k hk
      simp only [setup_camera, hfk]
      cases setup_camera attempts (k + 1) fuel <;> rfl)
    (fun k => rfl)
    N (le_refl N)
  simpa using h

/-- The consumer socket acquisition: fails `N` times then succeeds; never
returns within `N` iterations, and with any larger fuel returns the connected
socket with exactly `N` two-second sleeps. -/
theorem setup_socketC_retry (attempts : Nat → CSockAttempt) (a : String)
    (N sid : Nat) (hfail : ∀ j, j < N → (attempts j).isFail = true)
    (hN : attempts N = .success sid) :
    (∀ fuel, fuel ≤ N → setup_socketC attempts a 0 fuel = none) ∧
    (∀ fuel, N < fuel → ∃ tr, setup_socketC attempts a 0 fuel = some (⟨a, sid⟩, tr) ∧
      tr.filter Event.isSleepSec = List.replicate N (Event.sleepSec 2)) := by
  have h := retry_generic (fun k fuel => setup_socketC attempts a k fuel) N ⟨a, sid⟩ 2
    (fun k => match attempts k with
      | .createFail => [Event.logSockCreateRetry]
      | _ => [Event.logConnectRetry])
    (fun k => rfl)
    (fun fuel => by simp [setup_socketC, hN])
    (fun k hk fuel => by
      have hfk := hfail k hk
      cases ha : attempts k with
      | success s => rw [ha] at hfk; simp [CSockAttempt.isFail] at hfk
      | createFail =>
        simp only [setup_socketC, ha]
        cases setup_socketC attempts a (k + 1) fuel <;> rfl
      | connectFail =>
        simp only [setup_socketC, ha]
        cases setup_socketC attempts a (k + 1) fuel <;> rfl)
    (fun k => by cases h : attempts k <;> simp [h, Event.isSleepSec])
    N (le_refl N)
  simpa using h

/-- The model load: fails `N` times then succeeds; never returns within `N`
iterations, and with any larger fuel returns the session with exactly `N`
five-second sleeps. -/
theorem setup_model_retry (attempts : Nat → Option (List Tensor → Except Unit Outputs))
    (p : String) (N : Nat) (runFn : List Tensor → Except Unit Outputs)
    (hfail : ∀ j, j < N → attempts j = none)
    (hN : attempts N = some runFn) :
    (∀ fuel, fuel ≤ N → setup_model attempts p 0 fuel = none) ∧
    (∀ fuel, N < fuel → ∃ tr, setup_model attempts p 0 fuel = some (⟨p, runFn⟩, tr) ∧
      tr.filter Event.isSleepSec = List.replicate N (Event.sleepSec 5)) := by
  have h := retry_generic (fun k fuel => setup_model attempts p k fuel) N ⟨p, runFn⟩ 5
    (fun _ => [Event.logModelLoadRetry])
    (fun k => rfl)
    (fun fuel => by simp [setup_model, hN])
    (fun k hk fuel => by
      have hfk := hfail k hk
      simp only [setup_model, hfk]
      cases setup_model attempts p (k + 1) fuel <;> rfl)
    (fun k => rfl)
    N (le_refl N)
  simpa using h

/-! ## Claims -/

/-- Claim C1: for every resource-acquisition routine (producer setup_socket,
setup_camera, consumer setup_socket, setup_model), if the underlying
acquisition fails N times and then succeeds, the routine returns a usable
handle on the N+1th attempt and never returns before success, retrying at its
fixed interval (1 second for producer socket and camera, 2 seconds for
consumer socket, 5 seconds for model load) with no upper retry bound. -/
theorem acquisition_retries_until_success :
    (∀ (attempts : Nat → PSockAttempt) (a : String) (N sid : Nat),
      (∀ j, j < N → (attempts j).isFail = true) → attempts N = .success sid →
      (∀ fuel, fuel ≤ N → setup_socketP attempts a 0 fuel = none) ∧
      (∃ tr, setup_socketP attempts a 0 (N + 1) = some (⟨a, sid⟩, tr) ∧
        tr.filter Event.isSleepSec = List.replicate N (Event.sleepSec 1))) ∧
    (∀ (attempts : Nat → Option Nat) (N cid : Nat),
      (∀ j, j < N → attempts j = none) → attempts N = some cid →
      (∀ fuel, fuel ≤ N → setup_camera attempts 0 fuel = none) ∧
      (∃ tr, setup_camera attempts 0 (N + 1) = some (⟨cid⟩, tr) ∧
        tr.filter Event.isSleepSec = List.replicate N (Event.sleepSec 1))) ∧
    (∀ (attempts : Nat → CSockAttempt) (a : String) (N sid : Nat),
      (∀ j, j < N → (attempts j).isFail = true) → attempts N = .success sid →
      (∀ fuel, fuel ≤ N → setup_socketC attempts a 0 fuel = none) ∧
      (∃ tr, setup_socketC attempts a 0 (N + 1) = some (⟨a, sid⟩, tr) ∧
        tr.filter Event.isSleepSec = List.replicate N (Event.sleepSec 2))) ∧
    (∀ (attempts : Nat → Option (List Tensor → Except Unit Outputs)) (p : String)
      (N : Nat) (runFn : List Tensor → Except Unit Outputs),
      (∀ j, j < N → attempts j = none) → attempts N = some runFn →
      (∀ fuel, fuel ≤ N → setup_model attempts p 0 fuel = none) ∧
      (∃ tr, setup_model attempts p 0 (N + 1) = some (⟨p, runFn⟩, tr) ∧
        tr.filter Event.isSleepSec = List.replicate N (Event.sleepSec 5))) := by
  refine ⟨?_, ?_, ?_, ?_⟩
  · intro attempts a N sid hfail hN
    obtain ⟨h1, h2⟩ := setup_socketP_retry attempts a N sid hfail hN
    exact ⟨h1, h2 (N + 1) (by omega)⟩
  · intro attempts N cid hfail hN
    obtain ⟨h1, h2⟩ := setup_camera_retry attempts N cid hfail hN
    exact ⟨h1, h2 (N + 1) (by omega)⟩
  · intro attempts a N sid hfail hN
    obtain ⟨h1, h2⟩ := setup_socketC_retry attempts a N sid hfail hN
    exact ⟨h1, h2 (N + 1) (by omega)⟩
  · intro attempts p N runFn hfail hN
    obtain ⟨h1, h2⟩ := setup_model_retry attempts p N runFn hfail hN
    exact ⟨h1, h2 (N + 1) (by omega)⟩

/-- Witness for C1: concrete fault-injected oracles (producer socket fails
twice, camera once, consumer socket once, model twice) with the concrete
conclusions. -/
theorem acquisition_retries_until_success_witness :
    (setup_socketP pSockAttemptsEx "tcp://*:5555" 0 2 = none ∧
      ∃ tr, setup_socketP pSockAttemptsEx "tcp://*:5555" 0 3 =
          some (⟨"tcp://*:5555", 7⟩, tr) ∧
        tr.filter Event.isSleepSec = List.replicate 2 (Event.sleepSec 1)) ∧
    (setup_camera camAttemptsEx 0 1 = none ∧
      ∃ tr, setup_camera camAttemptsEx 0 2 = some (⟨4⟩, tr) ∧
        tr.filter Event.isSleepSec = List.replicate 1 (Event.sleepSec 1)) ∧
    (setup_socketC cSockAttemptsEx "tcp://localhost:5555" 0 1 = none ∧
      ∃ tr, setup_socketC cSockAttemptsEx "tcp://localhost:5555" 0 2 =
          some (⟨"tcp://localhost:5555", 9⟩, tr) ∧
        tr.filter Event.isSleepSec = List.replicate 1 (Event.sleepSec 2)) ∧
    (setup_model modelAttemptsEx "model.onnx" 0 2 = none ∧
      ∃ tr, setup_model modelAttemptsEx "model.onnx" 0 3 =
          some (⟨"model.onnx", runFnEx⟩, tr) ∧
        tr.filter Event.isSleepSec = List.replicate 2 (Event.sleepSec 5)) := by
  obtain ⟨h1, h2, h3, h4⟩ := acquisition_retries_until_success
  have w1 := h1 pSockAttemptsEx "tcp://*:5555" 2 7
    (by intro j hj; interval_cases j <;> rfl) rfl
  have w2 := h2 camAttemptsEx 1 4
    (by intro j hj; interval_cases j; rfl) rfl
  have w3 := h3 cSockAttemptsEx "tcp://localhost:5555" 1 9
    (by intro j hj; interval_cases j; rfl) rfl
  have w4 := h4 modelAttemptsEx "model.onnx" 2 runFnEx
    (by intro j hj; interval_cases j <;> rfl) rfl
  exact ⟨⟨w1.1 2 (by omega), w1.2⟩, ⟨w2.1 1 (by omega), w2.2⟩,
    ⟨w3.1 1 (by omega), w3.2⟩, ⟨w4.1 2 (by omega), w4.2⟩⟩

/-- A capture tick on a read failure: log, re-acquire the camera, sleep. -/
theorem captureTick_read_fail (env : PTickEnv) (s : ProducerState)
    (h : env.read = .fail) :
    captureTick env s = ({ s with cam := env.newCam },
      [.logCameraError, .setupCameraCall, .sleepMs 33]) := by
  simp [captureTick, h]

/-- A capture tick on an empty frame: log and sleep only. -/
theorem captureTick_empty (env : PTickEnv) (s : ProducerState) (m : List Nat)
    (h : env.read = .ok m) (he : m.isEmpty = true) :
    captureTick env s = (s, [.logEmptyFrame, .sleepMs 33]) := by
  simp [captureTick, h, he]

/-- A capture tick on a non-empty frame whose encoding fails: the send is
skipped silently; only the tick sleep happens. -/
theorem captureTick_encode_fail (env : PTickEnv) (s : ProducerState)
    (m : List Nat) (h : env.read = .ok m) (hm : m.isEmpty = false)
    (henc : env.encode m = none) :
    captureTick env s = (s, [.sleepMs 33]) := by
  simp [captureTick, h, hm, henc]

/-- A capture tick with a successful send. -/
theorem captureTick_send_ok (env : PTickEnv) (s : ProducerState)
    (m enc : List Nat) (h : env.read = .ok m) (hm : m.isEmpty = false)
    (henc : env.encode m = some enc) (hs : env.send dontwait = .ok) :
    captureTick env s = (s, [.sendAttempt enc dontwait, .sleepMs 33]) := by
  simp [captureTick, try_send, h, hm, henc, hs]

/-- A capture tick whose send reports EAGAIN: the frame is dropped with the
busy warning and the loop-level warning, then the tick sleep. -/
theorem captureTick_send_eagain (env : PTickEnv) (s : ProducerState)
    (m enc : List Nat) (h : env.read = .ok m) (hm : m.isEmpty = false)
    (henc : env.encode m = some enc) (hs : env.send dontwait = .eagain) :
    captureTick env s =
      (s, [.sendAttempt enc dontwait, .logBusy, .logSendFailed, .sleepMs 33]) := by
  simp [captureTick, try_send, h, hm, henc, hs]

/-- A capture tick whose send fails with any other error. -/
theorem captureTick_send_err (env : PTickEnv) (s : ProducerState)
    (m enc : List Nat) (h : env.read = .ok m) (hm : m.isEmpty = false)
    (henc : env.encode m = some enc) (hs : env.send dontwait = .errOther) :
    captureTick env s =
      (s, [.sendAttempt enc dontwait, .logSendError, .logSendFailed, .sleepMs 33]) := by
  simp [captureTick, try_send, h, hm, henc, hs]

/-- The socket field is untouched by every capture tick. -/
theorem captureTick_sock (env : PTickEnv) (s : ProducerState) :
    (captureTick env s).1.sock = s.sock := by
  cases hr : env.read with
  | fail => rw [captureTick_read_fail env s hr]
  | ok m =>
    by_cases hm : m.isEmpty = false
    · cases henc : env.encode m with
      | none => rw [captureTick_encode_fail env s m hr hm henc]
      | some enc =>
        cases hs : env.send dontwait with
        | ok => rw [captureTick_send_ok env s m enc hr hm henc hs]
        | eagain => rw [captureTick_send_eagain env s m enc hr hm henc hs]
        | errOther => rw [captureTick_send_err env s m enc hr hm henc hs]
    · have hm2 : m.isEmpty = true := by simpa using hm
      rw [captureTick_empty env s m hr hm2]

/-- The camera field is untouched by a capture tick whose read did not fail. -/
theorem captureTick_cam_stable (env : PTickEnv) (s : ProducerState)
    (h : env.read ≠ .fail) : (captureTick env s).1.cam = s.cam := by
  cases hr : env.read with
  | fail => exact absurd hr h
  | ok m =>
    by_cases hm : m.isEmpty = false
    · cases henc : env.encode m with
      | none => rw [captureTick_encode_fail env s m hr hm henc]
      | some enc =>
        cases hs : env.send dontwait with
        | ok => rw [captureTick_send_ok env s m enc hr hm henc hs]
        | eagain => rw [captureTick_send_eagain env s m enc hr hm henc hs]
        | errOther => rw [captureTick_send_err env s m enc hr hm henc hs]
    · have hm2 : m.isEmpty = true := by simpa using hm
      rw [captureTick_empty env s m hr hm2]

/-- The socket survives any number of capture-loop iterations. -/
theorem runPTicks_sock (envs : Nat → PTickEnv) (s : ProducerState) :
    ∀ n, (runPTicks envs s n).sock = s.sock := by
  intro n
  induction n with
  | zero => rfl
  | succ n ih => rw [runPTicks, captureTick_sock, ih]

/-- A processing tick never changes the consumer state. -/
theorem processingTick_state (env : CTickEnv) (s : ConsumerState) :
    (processingTick env s).1 = s := by
  unfold processingTick
  cases env.recv with
  | err => rfl
  | ok d => cases hp : (process_frame s.session d).1 <;> simp [hp]

/-- The consumer state survives any number of processing-loop iterations. -/
theorem runCTicks_state (envs : Nat → CTickEnv) (s : ConsumerState) :
    ∀ n, runCTicks envs s n = s := by
  intro n
  induction n with
  | zero => rfl
  | succ n ih => rw [runCTicks, ih, processingTick_state]

/-- A processing tick on a receive failure: log, sleep 1 second, keep state. -/
theorem processingTick_recv_err (env : CTickEnv) (s : ConsumerState)
    (h : env.recv = .err) :
    processingTick env s = (s, [.logRecvFailed, .sleepSec 1]) := by
  simp [processingTick, h]

/-- A processing tick whose frame fails to process: log, keep state. -/
theorem processingTick_frame_err (env : CTickEnv) (s : ConsumerState)
    (d : List Nat) (e : Unit) (h : env.recv = .ok d)
    (hp : (process_frame s.session d).1 = .error e) :
    processingTick env s = (s, [.logInferenceError]) := by
  simp [processingTick, h, hp]

/-- A processing tick whose frame processes: print, keep state. -/
theorem processingTick_frame_ok (env : CTickEnv) (s : ConsumerState)
    (d : List Nat) (out : Outputs) (h : env.recv = .ok d)
    (hp : (process_frame s.session d).1 = .ok out) :
    processingTick env s = (s, [.printOutputs]) := by
  simp [processingTick, h, hp]

/-- A payload whose length is not 1*3*224*224 fails the reshape before any
inference, for every session. -/
theorem process_frame_shape_err (session : ModelSession) (d : List Nat)
    (h : d.length ≠ 150528) : process_frame session d = (.error (), 0) := by
  have hp : ([1, 3, 224, 224] : List Nat).prod = 150528 := by norm_num [List.prod]
  unfold process_frame from_shape_vec
  rw [hp, if_neg (by omega)]

/-- A payload of exactly 1*3*224*224 bytes reaches session.run once. -/
theorem process_frame_shape_ok (session : ModelSession) (d : List Nat)
    (h : d.length = 150528) :
    process_frame session d = (session.run [⟨[1, 3, 224, 224], d⟩], 1) := by
  have hp : ([1, 3, 224, 224] : List Nat).prod = 150528 := by norm_num [List.prod]
  unfold process_frame from_shape_vec
  rw [hp, h, if_pos rfl]

/-- Claim C2: the producer send is non-blocking: try_send performs one send
call with the DONTWAIT flag; on a would-block (EAGAIN) or any other send
error it returns an error immediately with a warning, the frame is never
retried (exactly one send call per tick), and the capture loop keeps its
state and ends the tick with the per-tick sleep instead of terminating. -/
theorem try_send_nonblocking_drops_frame :
    (∀ (send : Nat → SendResult) (data : List Nat),
      (send dontwait = .eagain →
        try_send send data = (.error (), [.sendAttempt data dontwait, .logBusy])) ∧
      (send dontwait = .errOther →
        try_send send data = (.error (), [.sendAttempt data dontwait, .logSendError])) ∧
      (try_send send data).2.countP Event.isSendAttempt = 1 ∧
      (∀ e, e ∈ (try_send send data).2 → e.isSendAttempt = true →
        e = .sendAttempt data dontwait)) ∧
    (∀ (env : PTickEnv) (s : ProducerState) (m enc : List Nat),
      env.read = .ok m → m.isEmpty = false → env.encode m = some enc →
      env.send dontwait ≠ .ok →
      (captureTick env s).1 = s ∧
      (captureTick env s).2.countP Event.isSendAttempt = 1 ∧
      Event.logSendFailed ∈ (captureTick env s).2 ∧
      (captureTick env s).2.getLast? = some (.sleepMs 33)) := by
  constructor
  · intro send data
    cases hs : send dontwait <;>
      simp [try_send, hs, Event.isSendAttempt, List.countP_cons, List.countP_nil]
  · intro env s m enc h hm henc hsend
    cases hs : env.send dontwait with
    | ok => exact absurd hs hsend
    | eagain =>
      rw [captureTick_send_eagain env s m enc h hm henc hs]
      refine ⟨rfl, ?_, ?_, rfl⟩
      · simp [List.countP_cons, List.countP_nil, Event.isSendAttempt]
      · simp
    | errOther =>
      rw [captureTick_send_err env s m enc h hm henc hs]
      refine ⟨rfl, ?_, ?_, rfl⟩
      · simp [List.countP_cons, List.countP_nil, Event.isSendAttempt]
      · simp

/-- Witness for C2 at a concrete blocked transport. -/
theorem try_send_nonblocking_drops_frame_witness :
    (try_send (fun _ => SendResult.eagain) [5] =
      (.error (), [.sendAttempt [5] dontwait, .logBusy])) ∧
    (try_send (fun _ => SendResult.errOther) [5] =
      (.error (), [.sendAttempt [5] dontwait, .logSendError])) ∧
    ((captureTick eagainTickEnvEx producerStateEx).1 = producerStateEx ∧
      (captureTick eagainTickEnvEx producerStateEx).2.countP Event.isSendAttempt = 1 ∧
      Event.logSendFailed ∈ (captureTick eagainTickEnvEx producerStateEx).2 ∧
      (captureTick eagainTickEnvEx producerStateEx).2.getLast? = some (.sleepMs 33)) := by
  obtain ⟨h1, h2⟩ := try_send_nonblocking_drops_frame
  exact ⟨(h1 (fun _ => SendResult.eagain) [5]).1 rfl,
    (h1 (fun _ => SendResult.errOther) [5]).2.1 rfl,
    h2 eagainTickEnvEx producerStateEx [5] [5] rfl rfl rfl (by decide)⟩

/-- Claim C3: a camera read failure triggers exactly one camera
re-acquisition in that tick (the handle becomes the freshly acquired one),
and no other steady-state outcome ever replaces the camera handle. -/
theorem camera_reacquired_exactly_on_read_failure :
    (∀ (env : PTickEnv) (s : ProducerState), env.read = .fail →
      (captureTick env s).1.cam = env.newCam ∧
      (captureTick env s).2.countP Event.isSetupCameraCall = 1) ∧
    (∀ (env : PTickEnv) (s : ProducerState), env.read ≠ .fail →
      (captureTick env s).1.cam = s.cam ∧
      (captureTick env s).2.countP Event.isSetupCameraCall = 0) ∧
    (∀ (envs : Nat → PTickEnv) (s : ProducerState) (n : Nat),
      (∀ k, k < n → (envs k).read ≠ .fail) →
      (runPTicks envs s n).cam = s.cam) := by
  refine ⟨?_, ?_, ?_⟩
  · intro env s h
    rw [captureTick_read_fail env s h]
    exact ⟨rfl, by simp [List.countP_cons, List.countP_nil, Event.isSetupCameraCall]⟩
  · intro env s h
    refine ⟨captureTick_cam_stable env s h, ?_⟩
    cases hr : env.read with
    | fail => exact absurd hr h
    | ok m =>
      by_cases hm : m.isEmpty = false
      · cases henc : env.encode m with
        | none =>
          rw [captureTick_encode_fail env s m hr hm henc]
          simp [List.countP_cons, List.countP_nil, Event.isSetupCameraCall]
        | some enc =>
          cases hs : env.send dontwait with
          | ok =>
            rw [captureTick_send_ok env s m enc hr hm henc hs]
            simp [List.countP_cons, List.countP_nil, Event.isSetupCameraCall]
          | eagain =>
            rw [captureTick_send_eagain env s m enc hr hm henc hs]
            simp [List.countP_cons, List.countP_nil, Event.isSetupCameraCall]
          | errOther =>
            rw [captureTick_send_err env s m enc hr hm henc hs]
            simp [List.countP_cons, List.countP_nil, Event.isSetupCameraCall]
      · have hm2 : m.isEmpty = true := by simpa using hm
        rw [captureTick_empty env s m hr hm2]
        simp [List.countP_cons, List.countP_nil, Event.isSetupCameraCall]
  · intro envs s n h
    induction n with
    | zero => rfl
    | succ n ih =>
      rw [runPTicks, captureTick_cam_stable _ _ (h n (by omega)),
        ih (fun k hk => h k (by omega))]

/-- Witness for C3: a failing read replaces the camera once; a working tick
and three working ticks leave it alone. -/
theorem camera_reacquired_exactly_on_read_failure_witness :
    ((captureTick readFailEnvEx producerStateEx).1.cam = Camera.mk 2 ∧
      (captureTick readFailEnvEx producerStateEx).2.countP Event.isSetupCameraCall = 1) ∧
    ((captureTick okTickEnvEx producerStateEx).1.cam = producerStateEx.cam ∧
      (captureTick okTickEnvEx producerStateEx).2.countP Event.isSetupCameraCall = 0) ∧
    (runPTicks (fun _ => okTickEnvEx) producerStateEx 3).cam = producerStateEx.cam := by
  obtain ⟨h1, h2, h3⟩ := camera_reacquired_exactly_on_read_failure
  have hok : okTickEnvEx.read ≠ ReadResult.fail := by decide
  exact ⟨h1 readFailEnvEx producerStateEx rfl,
    h2 okTickEnvEx producerStateEx hok,
    h3 (fun _ => okTickEnvEx) producerStateEx 3 (fun _ _ => hok)⟩

/-- Claim C4: each channel endpoint is acquired once at startup and never
re-acquired: the socket field of either agent survives any number of loop
iterations; a consumer receive failure only logs and sleeps 1 second, keeping
the same socket for the next receive; a producer send failure keeps the same
socket for the next tick. -/
theorem channel_endpoint_never_reacquired :
    (∀ (envs : Nat → PTickEnv) (s : ProducerState) (n : Nat),
      (runPTicks envs s n).sock = s.sock) ∧
    (∀ (envs : Nat → CTickEnv) (s : ConsumerState) (n : Nat),
      (runCTicks envs s n).sock = s.sock) ∧
    (∀ (env : CTickEnv) (s : ConsumerState), env.recv = .err →
      processingTick env s = (s, [.logRecvFailed, .sleepSec 1])) ∧
    (∀ (env : PTickEnv) (s : ProducerState) (m enc : List Nat),
      env.read = .ok m → m.isEmpty = false → env.encode m = some enc →
      env.send dontwait ≠ .ok → (captureTick env s).1.sock = s.sock) := by
  refine ⟨?_, ?_, ?_, ?_⟩
  · intro envs s n
    exact runPTicks_sock envs s n
  · intro envs s n
    rw [runCTicks_state]
  · intro env s h
    exact processingTick_recv_err env s h
  · intro env s m enc _ _ _ _
    exact captureTick_sock env s

/-- Witness for C4: concrete failing receives and a blocked send leave the
concrete sockets in place. -/
theorem channel_endpoint_never_reacquired_witness :
    (runPTicks (fun _ => eagainTickEnvEx) producerStateEx 4).sock =
      producerStateEx.sock ∧
    (runCTicks (fun _ => recvErrEnvEx) consumerStateEx 4).sock =
      consumerStateEx.sock ∧
    processingTick recvErrEnvEx consumerStateEx =
      (consumerStateEx, [.logRecvFailed, .sleepSec 1]) ∧
    (captureTick eagainTickEnvEx producerStateEx).1.sock =
      producerStateEx.sock := by
  obtain ⟨h1, h2, h3, h4⟩ := channel_endpoint_never_reacquired
  exact ⟨h1 (fun _ => eagainTickEnvEx) producerStateEx 4,
    h2 (fun _ => recvErrEnvEx) consumerStateEx 4,
    h3 recvErrEnvEx consumerStateEx rfl,
    h4 eagainTickEnvEx producerStateEx [5] [5] rfl rfl rfl (by decide)⟩

/-- Claim C5: per-frame processing failures are logged and the consumer loop
continues with the same model session: the consumer state (hence the session)
survives any number of iterations, a failing frame only emits the inference
error line, and a shape mismatch in particular is a per-frame error handled
the same way. -/
theorem session_never_invalidated :
    (∀ (envs : Nat → CTickEnv) (s : ConsumerState) (n : Nat),
      runCTicks envs s n = s) ∧
    (∀ (env : CTickEnv) (s : ConsumerState) (d : List Nat) (e : Unit),
      env.recv = .ok d → (process_frame s.session d).1 = .error e →
      processingTick env s = (s, [.logInferenceError])) ∧
    (∀ (env : CTickEnv) (s : ConsumerState) (d : List Nat),
      env.recv = .ok d → d.length ≠ 150528 →
      processingTick env s = (s, [.logInferenceError])) := by
  refine ⟨runCTicks_state, ?_, ?_⟩
  · intro env s d e h hp
    exact processingTick_frame_err env s d e h hp
  · intro env s d h hl
    refine processingTick_frame_err env s d () h ?_
    rw [process_frame_shape_err s.session d hl]

/-- Witness for C5: a concrete wrongly sized frame is logged and the concrete
state survives. -/
theorem session_never_invalidated_witness :
    runCTicks (fun _ => recvShortEnvEx) consumerStateEx 4 = consumerStateEx ∧
    processingTick recvShortEnvEx consumerStateEx =
      (consumerStateEx, [.logInferenceError]) := by
  obtain ⟨h1, _, h3⟩ := session_never_invalidated
  exact ⟨h1 (fun _ => recvShortEnvEx) consumerStateEx 4,
    h3 recvShortEnvEx consumerStateEx [0, 1, 2] rfl (by decide)⟩

/-- Claim C6: a tick that reads an empty frame logs it and continues: no send
is attempted, the camera handle is untouched, and the tick ends with the
fixed per-tick sleep. -/
theorem empty_frame_logged_and_skipped :
    ∀ (env : PTickEnv) (s : ProducerState) (m : List Nat),
      env.read = .ok m → m.isEmpty = true →
      captureTick env s = (s, [.logEmptyFrame, .sleepMs 33]) ∧
      (captureTick env s).2.countP Event.isSendAttempt = 0 ∧
      (captureTick env s).1.cam = s.cam := by
  intro env s m h he
  have ht := captureTick_empty env s m h he
  refine ⟨ht, ?_, ?_⟩
  · rw [ht]
    simp [List.countP_cons, List.countP_nil, Event.isSendAttempt]
  · rw [ht]

/-- Witness for C6 at a concrete empty-frame tick. -/
theorem empty_frame_logged_and_skipped_witness :
    captureTick emptyTickEnvEx producerStateEx =
      (producerStateEx, [.logEmptyFrame, .sleepMs 33]) ∧
    (captureTick emptyTickEnvEx producerStateEx).2.countP Event.isSendAttempt = 0 ∧
    (captureTick emptyTickEnvEx producerStateEx).1.cam = producerStateEx.cam :=
  empty_frame_logged_and_skipped emptyTickEnvEx producerStateEx [] rfl rfl

/-- Counterexample to C7 as stated: at a tick whose frame is good but whose
JPEG encoding fails, the producer emits no diagnostic at all (the source only
tests if let Ok on imencode and falls through silently), so it is not true
that every steady-state error is logged; the send is skipped and the loop
continues. -/
theorem steady_state_logging_cex :
    encodeFailEnvEx.read = .ok [5] ∧
    encodeFailEnvEx.encode [5] = none ∧
    captureTick encodeFailEnvEx producerStateEx =
      (producerStateEx, [.sleepMs 33]) ∧
    ¬ (1 ≤ (captureTick encodeFailEnvEx producerStateEx).2.countP Event.isLog) := by
  refine ⟨rfl, rfl, rfl, ?_⟩
  decide

/-- Claim C7 amended: every steady-state error except a producer encode
failure (empty frame, would-block or other send failure, receive failure,
decode or shape mismatch, inference failure) is logged and the current frame
is discarded while the loop continues; an encode failure skips the send but
emits no diagnostic at all. -/
theorem steady_state_errors_logged_except_encode :
    (∀ (env : PTickEnv) (s : ProducerState) (m : List Nat),
      env.read = .ok m → m.isEmpty = true →
      (captureTick env s).2.countP Event.isLog = 1 ∧ (captureTick env s).1 = s) ∧
    (∀ (env : PTickEnv) (s : ProducerState) (m enc : List Nat),
      env.read = .ok m → m.isEmpty = false → env.encode m = some enc →
      env.send dontwait ≠ .ok →
      1 ≤ (captureTick env s).2.countP Event.isLog ∧ (captureTick env s).1 = s) ∧
    (∀ (env : PTickEnv) (s : ProducerState), env.read = .fail →
      1 ≤ (captureTick env s).2.countP Event.isLog) ∧
    (∀ (env : CTickEnv) (s : ConsumerState), env.recv = .err →
      (processingTick env s).2.countP Event.isLog = 1 ∧
      (processingTick env s).1 = s) ∧
    (∀ (env : CTickEnv) (s : ConsumerState) (d : List Nat) (e : Unit),
      env.recv = .ok d → (process_frame s.session d).1 = .error e →
      (processingTick env s).2.countP Event.isLog = 1 ∧
      (processingTick env s).1 = s) ∧
    (∀ (env : PTickEnv) (s : ProducerState) (m : List Nat),
      env.read = .ok m → m.isEmpty = false → env.encode m = none →
      captureTick env s = (s, [.sleepMs 33])) := by
  refine ⟨?_, ?_, ?_, ?_, ?_, ?_⟩
  · intro env s m h he
    rw [captureTick_empty env s m h he]
    exact ⟨by simp [List.countP_cons, List.countP_nil, Event.isLog], rfl⟩
  · intro env s m enc h hm henc hsend
    cases hs : env.send dontwait with
    | ok => exact absurd hs hsend
    | eagain =>
      rw [captureTick_send_eagain env s m enc h hm henc hs]
      exact ⟨by simp [List.countP_cons, List.countP_nil, Event.isLog], rfl⟩
    | errOther =>
      rw [captureTick_send_err env s m enc h hm henc hs]
      exact ⟨by simp [List.countP_cons, List.countP_nil, Event.isLog], rfl⟩
  · intro env s h
    rw [captureTick_read_fail env s h]
    simp [List.countP_cons, List.countP_nil, Event.isLog]
  · intro env s h
    rw [processingTick_recv_err env s h]
    exact ⟨by simp [List.countP_cons, List.countP_nil, Event.isLog], rfl⟩
  · intro env s d e h hp
    rw [processingTick_frame_err env s d e h hp]
    exact ⟨by simp [List.countP_cons, List.countP_nil, Event.isLog], rfl⟩
  · intro env s m h hm henc
    exact captureTick_encode_fail env s m h hm henc

/-- Witness for the amended C7 at concrete ticks exercising each error kind. -/
theorem steady_state_errors_logged_except_encode_witness :
    ((captureTick emptyTickEnvEx producerStateEx).2.countP Event.isLog = 1 ∧
      (captureTick emptyTickEnvEx producerStateEx).1 = producerStateEx) ∧
    (1 ≤ (captureTick eagainTickEnvEx producerStateEx).2.countP Event.isLog ∧
      (captureTick eagainTickEnvEx producerStateEx).1 = producerStateEx) ∧
    (1 ≤ (captureTick readFailEnvEx producerStateEx).2.countP Event.isLog) ∧
    ((processingTick recvErrEnvEx consumerStateEx).2.countP Event.isLog = 1 ∧
      (processingTick recvErrEnvEx consumerStateEx).1 = consumerStateEx) ∧
    ((processingTick recvShortEnvEx consumerStateEx).2.countP Event.isLog = 1 ∧
      (processingTick recvShortEnvEx consumerStateEx).1 = consumerStateEx) ∧
    (captureTick encodeFailEnvEx producerStateEx =
      (producerStateEx, [.sleepMs 33])) := by
  obtain ⟨h1, h2, h3, h4, h5, h6⟩ := steady_state_errors_logged_except_encode
  exact ⟨h1 emptyTickEnvEx producerStateEx [] rfl rfl,
    h2 eagainTickEnvEx producerStateEx [5] [5] rfl rfl rfl (by decide),
    h3 readFailEnvEx producerStateEx rfl,
    h4 recvErrEnvEx consumerStateEx rfl,
    h5 recvShortEnvEx consumerStateEx [0, 1, 2] () rfl rfl,
    h6 encodeFailEnvEx producerStateEx [5] rfl rfl rfl⟩

/-- Claim C8: process_frame invokes session.run exactly when the payload has
1*3*224*224 = 150528 bytes; any other length fails the fixed-shape reshape
and returns an error with zero inference calls, independent of the session. -/
theorem inference_gated_by_payload_length :
    (([1, 3, 224, 224] : List Nat).prod = 150528) ∧
    (∀ (session : ModelSession) (d : List Nat), d.length ≠ 150528 →
      process_frame session d = (.error (), 0)) ∧
    (∀ (session : ModelSession) (d : List Nat), d.length = 150528 →
      process_frame session d = (session.run [⟨[1, 3, 224, 224], d⟩], 1)) := by
  exact ⟨by norm_num [List.prod], process_frame_shape_err, process_frame_shape_ok⟩

/-- Witness for C8: a 3-byte payload never reaches the session; a payload of
exactly 150528 bytes reaches it once. -/
theorem inference_gated_by_payload_length_witness :
    process_frame sessionEx [0, 1, 2] = (.error (), 0) ∧
    process_frame sessionEx (List.replicate 150528 0) =
      (sessionEx.run [⟨[1, 3, 224, 224], List.replicate 150528 0⟩], 1) := by
  obtain ⟨_, h2, h3⟩ := inference_gated_by_payload_length
  exact ⟨h2 sessionEx [0, 1, 2] (by decide),
    h3 sessionEx (List.replicate 150528 0) (by rw [List.length_replicate])⟩

/-- Every event the consumer socket acquisition can emit is one of its own
log lines or its 2-second sleep; in particular no model-load event. -/
theorem setup_socketC_events (attempts : Nat → CSockAttempt) (a : String) :
    ∀ fuel k r, setup_socketC attempts a k fuel = some r →
      ∀ e, e ∈ r.2 →
        e = Event.logSockCreateRetry ∨ e = Event.logConnectRetry ∨
          e = Event.sleepSec 2 := by
  intro fuel
  induction fuel with
  | zero =>
    intro k r h
    simp [setup_socketC] at h
  | succ fuel ih =>
    intro k r h e he
    cases ha : attempts k with
    | success sid =>
      simp only [setup_socketC, ha] at h
      cases h
      simp at he
    | createFail =>
      simp only [setup_socketC, ha] at h
      cases hrec : setup_socketC attempts a (k + 1) fuel with
      | none => rw [hrec] at h; simp at h
      | some r2 =>
        rw [hrec, Option.map_some'] at h
        cases h
        simp only [List.mem_cons] at he
        rcases he with rfl | rfl | he2
        · exact Or.inl rfl
        · exact Or.inr (Or.inr rfl)
        · exact ih (k + 1) r2 hrec e he2
    | connectFail =>
      simp only [setup_socketC, ha] at h
      cases hrec : setup_socketC attempts a (k + 1) fuel with
      | none => rw [hrec] at h; simp at h
      | some r2 =>
        rw [hrec, Option.map_some'] at h
        cases h
        simp only [List.mem_cons] at he
        rcases he with rfl | rfl | he2
        · exact Or.inr (Or.inl rfl)
        · exact Or.inr (Or.inr rfl)
        · exact ih (k + 1) r2 hrec e he2

/-- The producer socket acquisition returns a socket bound to the address it
was given. -/
theorem setup_socketP_addr (attempts : Nat → PSockAttempt) (a : String) :
    ∀ fuel k r, setup_socketP attempts a k fuel = some r → r.1.addr = a := by
  intro fuel
  induction fuel with
  | zero =>
    intro k r h
    simp [setup_socketP] at h
  | succ fuel ih =>
    intro k r h
    cases ha : attempts k with
    | success sid =>
      simp only [setup_socketP, ha] at h
      cases h
      rfl
    | createFail =>
      simp only [setup_socketP, ha] at h
      cases hrec : setup_socketP attempts a (k + 1) fuel with
      | none => rw [hrec] at h; simp at h
      | some r2 =>
        rw [hrec, Option.map_some'] at h
        cases h
        exact ih (k + 1) r2 hrec
    | bindFail =>
      simp only [setup_socketP, ha] at h
      cases hrec : setup_socketP attempts a (k + 1) fuel with
      | none => rw [hrec] at h; simp at h
      | some r2 =>
        rw [hrec, Option.map_some'] at h
        cases h
        exact ih (k + 1) r2 hrec

/-- The consumer socket acquisition returns a socket connected to the address
it was given. -/
theorem setup_socketC_addr (attempts : Nat → CSockAttempt) (a : String) :
    ∀ fuel k r, setup_socketC attempts a k fuel = some r → r.1.addr = a := by
  intro fuel
  induction fuel with
  | zero =>
    intro k r h
    simp [setup_socketC] at h
  | succ fuel ih =>
    intro k r h
    cases ha : attempts k with
    | success sid =>
      simp only [setup_socketC, ha] at h
      cases h
      rfl
    | createFail =>
      simp only [setup_socketC, ha] at h
      cases hrec : setup_socketC attempts a (k + 1) fuel with
      | none => rw [hrec] at h; simp at h
      | some r2 =>
        rw [hrec, Option.map_some'] at h
        cases h
        exact ih (k + 1) r2 hrec
    | connectFail =>
      simp only [setup_socketC, ha] at h
      cases hrec : setup_socketC attempts a (k + 1) fuel with
      | none => rw [hrec] at h; simp at h
      | some r2 =>
        rw [hrec, Option.map_some'] at h
        cases h
        exact ih (k + 1) r2 hrec

/-- The model load returns a session loaded from the path it was given. -/
theorem setup_model_path
    (attempts : Nat → Option (List Tensor → Except Unit Outputs)) (p : String) :
    ∀ fuel k r, setup_model attempts p k fuel = some r → r.1.path = p := by
  intro fuel
  induction fuel with
  | zero =>
    intro k r h
    simp [setup_model] at h
  | succ fuel ih =>
    intro k r h
    cases ha : attempts k with
    | some runFn =>
      simp only [setup_model, ha] at h
      cases h
      rfl
    | none =>
      simp only [setup_model, ha] at h
      cases hrec : setup_model attempts p (k + 1) fuel with
      | none => rw [hrec] at h; simp at h
      | some r2 =>
        rw [hrec, Option.map_some'] at h
        cases h
        exact ih (k + 1) r2 hrec

/-- Claim C9: the ONNX Runtime environment build is not under the retry
policy: when it fails (with the socket already acquired) the startup ends in
the expect panic at once, with no model-load log and no 5-second backoff
sleep before the panic; model loading from the artifact path, by contrast,
retries with the 5-second backoff. -/
theorem onnx_environment_failure_panics :
    (∀ (env : ConsumerStartupEnv) (fuel : Nat) (out : ConsumerStartup),
      env.envBuildOk = false → run_processing_startup env fuel = some out →
      ∃ ev, out = .panicked ev ∧ Event.logModelLoadRetry ∉ ev ∧
        Event.sleepSec 5 ∉ ev) ∧
    (∀ (attempts : Nat → Option (List Tensor → Except Unit Outputs)) (p : String)
      (runFn : List Tensor → Except Unit Outputs),
      attempts 0 = none → attempts 1 = some runFn →
      setup_model attempts p 0 2 =
        some (⟨p, runFn⟩, [.logModelLoadRetry, .sleepSec 5])) := by
  constructor
  · intro env fuel out hb h
    unfold run_processing_startup at h
    cases hs : setup_socketC env.sockAttempts (zmqAddressOf env.os) 0 fuel with
    | none => rw [hs] at h; simp at h
    | some r =>
      obtain ⟨sock, ev1⟩ := r
      rw [hs, hb] at h
      simp only [Bool.false_eq_true, if_false, Option.some.injEq] at h
      refine ⟨ev1, h.symm, ?_, ?_⟩ <;> intro hmem <;>
        rcases setup_socketC_events env.sockAttempts _ fuel 0 (sock, ev1) hs _ hmem
          with h1 | h1 | h1 <;> simp at h1
  · intro attempts p runFn h0 h1
    simp [setup_model, h0, h1]

/-- Witness for C9: a concrete startup with a failing environment build
panics with no model retry activity, and a concrete model oracle that fails
once shows the 5-second backoff. -/
theorem onnx_environment_failure_panics_witness :
    (∃ ev, run_processing_startup consumerStartupEnvFailEx 1 =
        some (.panicked ev) ∧
      Event.logModelLoadRetry ∉ ev ∧ Event.sleepSec 5 ∉ ev) ∧
    setup_model (fun k => if k = 0 then none else some runFnEx) "model.onnx" 0 2 =
      some (⟨"model.onnx", runFnEx⟩, [.logModelLoadRetry, .sleepSec 5]) := by
  obtain ⟨h1, h2⟩ := onnx_environment_failure_panics
  obtain ⟨ev, hout, hm1, hm2⟩ :=
    h1 consumerStartupEnvFailEx 1 (.panicked []) rfl rfl
  refine ⟨⟨ev, ?_, hm1, hm2⟩,
    h2 (fun k => if k = 0 then none else some runFnEx) "model.onnx" runFnEx rfl rfl⟩
  rw [← hout]
  rfl

/-- Claim C10: the producer binds the literal address tcp://*:5555; the
consumer connects to the ZMQ_ADDRESS variable with default
tcp://localhost:5555 and loads the model from the MODEL_PATH variable with
default model.onnx. -/
theorem configured_addresses_and_paths :
    (∀ (env : ProducerStartupEnv) (fuel : Nat) (st : ProducerState)
      (ev : List Event), run_capture_startup env fuel = some (st, ev) →
      st.sock.addr = "tcp://*:5555") ∧
    (∀ e : OsEnv, e.vars "ZMQ_ADDRESS" = none →
      zmqAddressOf e = "tcp://localhost:5555") ∧
    (∀ (e : OsEnv) (v : String), e.vars "ZMQ_ADDRESS" = some v →
      zmqAddressOf e = v) ∧
    (∀ e : OsEnv, e.vars "MODEL_PATH" = none → modelPathOf e = "model.onnx") ∧
    (∀ (e : OsEnv) (v : String), e.vars "MODEL_PATH" = some v →
      modelPathOf e = v) ∧
    (∀ (env : ConsumerStartupEnv) (fuel : Nat) (st : ConsumerState)
      (ev : List Event),
      run_processing_startup env fuel = some (.ready st ev) →
      st.sock.addr = zmqAddressOf env.os ∧
      st.session.path = modelPathOf env.os) := by
  refine ⟨?_, ?_, ?_, ?_, ?_, ?_⟩
  · intro env fuel st ev h
    unfold run_capture_startup at h
    cases hs : setup_socketP env.sockAttempts "tcp://*:5555" 0 fuel with
    | none => rw [hs] at h; simp at h
    | some r =>
      obtain ⟨sock, ev1⟩ := r
      rw [hs] at h
      cases hc : setup_camera env.camAttempts 0 fuel with
      | none => rw [hc] at h; simp at h
      | some r2 =>
        obtain ⟨cam, ev2⟩ := r2
        rw [hc] at h
        simp only [Option.some.injEq, Prod.mk.injEq] at h
        have haddr := setup_socketP_addr env.sockAttempts _ fuel 0 (sock, ev1) hs
        rw [← h.1]
        exact haddr
  · intro e h
    simp [zmqAddressOf, h]
  · intro e v h
    simp [zmqAddressOf, h]
  · intro e h
    simp [modelPathOf, h]
  · intro e v h
    simp [modelPathOf, h]
  · intro env fuel st ev h
    cases hs : setup_socketC env.sockAttempts (zmqAddressOf env.os) 0 fuel with
    | none => simp [run_processing_startup, hs] at h
    | some r =>
      obtain ⟨sock, ev1⟩ := r
      cases hb : env.envBuildOk with
      | false => simp [run_processing_startup, hs, hb] at h
      | true =>
        cases hm : setup_model env.modelAttempts (modelPathOf env.os) 0 fuel with
        | none => simp [run_processing_startup, hs, hb, hm] at h
        | some r2 =>
          obtain ⟨session, ev2⟩ := r2
          simp only [run_processing_startup, hs, hb, hm, if_true,
            Option.some.injEq, ConsumerStartup.ready.injEq] at h
          have haddr := setup_socketC_addr env.sockAttempts _ fuel 0 (sock, ev1) hs
          have hpath := setup_model_path env.modelAttempts _ fuel 0 (session, ev2) hm
          rw [← h.1]
          exact ⟨haddr, hpath⟩

/-- Witness for C10: concrete startups with unset and set variables reach
sockets and sessions carrying the expected addresses and path. -/
theorem configured_addresses_and_paths_witness :
    zmqAddressOf osEnvEx = "tcp://localhost:5555" ∧
    modelPathOf osEnvEx = "model.onnx" ∧
    zmqAddressOf osEnvSetEx = "tcp://10.0.0.5:7777" ∧
    modelPathOf osEnvSetEx = "m2.onnx" ∧
    (∃ st ev, run_capture_startup producerStartupEnvEx 3 = some (st, ev) ∧
      st.sock.addr = "tcp://*:5555") ∧
    (∃ st ev, run_processing_startup consumerStartupEnvEx 3 =
        some (.ready st ev) ∧
      st.sock.addr = "tcp://10.0.0.5:7777" ∧ st.session.path = "m2.onnx") := by
  obtain ⟨h1, h2, h3, h4, h5, h6⟩ := configured_addresses_and_paths
  refine ⟨h2 osEnvEx rfl, h4 osEnvEx rfl, h3 osEnvSetEx "tcp://10.0.0.5:7777" rfl,
    h5 osEnvSetEx "m2.onnx" rfl, ?_, ?_⟩
  · refine ⟨⟨⟨4⟩, ⟨"tcp://*:5555", 7⟩⟩,
      [.logSocketRetry, .sleepSec 1, .sleepSec 1, .logCameraInitRetry, .sleepSec 1],
      rfl, ?_⟩
    exact h1 producerStartupEnvEx 3 _ _ rfl
  · refine ⟨⟨⟨"tcp://10.0.0.5:7777", 9⟩, ⟨"m2.onnx", runFnEx⟩⟩,
      [.logConnectRetry, .sleepSec 2, .logModelLoadRetry, .sleepSec 5,
        .logModelLoadRetry, .sleepSec 5], rfl, ?_⟩
    have := h6 consumerStartupEnvEx 3 ⟨⟨"tcp://10.0.0.5:7777", 9⟩, ⟨"m2.onnx", runFnEx⟩⟩
      [.logConnectRetry, .sleepSec 2, .logModelLoadRetry, .sleepSec 5,
        .logModelLoadRetry, .sleepSec 5] rfl
    exact this
